import Mathlib

/- Shallow embedding of the Windows cropping window capturer
   (modules/desktop_capture of the nwjs-webrtc tree): the occlusion scan
   (TopWindowVerifier), the background exclusion-set worker
   (WindowsTopOfMeWorker), the per-frame backend state machine
   (CroppingWindowCapturerWin::CaptureFrame / OnCaptureResult), the
   selection helpers (SelectedWindowContext, SelectSource) and the GDI
   window backend entry (WindowCapturerWin::CaptureFrame).

   Window handles are modelled as Nat (0 = NULL).  OS queries
   (visibility, titles, rectangles, ancestry) are supplied by explicit
   environment records, so every definition is executable. -/

namespace NwCapture

/-- Modelled from the spec: integer rectangle (DesktopRect of
desktop_geometry, which is not under src/).  Operations intersect,
contains, translate, is-empty, as the spec lists; the intersection of
rectangles with an empty overlap is normalised to the zero rectangle,
matching the observable use in the sources (only emptiness and equality
of the result are ever consulted). -/
structure DRect where
  left : Int
  top : Int
  right : Int
  bottom : Int
deriving DecidableEq, Repr

/-- The default-constructed DesktopRect(): all coordinates zero. -/
def DRect.zero : DRect := ⟨0, 0, 0, 0⟩

/-- DesktopRect::is_empty: degenerate in either dimension. -/
def DRect.isEmpty (r : DRect) : Bool :=
  decide (r.left ≥ r.right) || decide (r.top ≥ r.bottom)

/-- DesktopRect::IntersectWith. -/
def DRect.intersect (a b : DRect) : DRect :=
  let c : DRect := ⟨max a.left b.left, max a.top b.top,
                    min a.right b.right, min a.bottom b.bottom⟩
  if c.isEmpty then DRect.zero else c

/-- DesktopRect::ContainsRect. -/
def DRect.containsRect (a b : DRect) : Bool :=
  decide (a.left ≤ b.left) && decide (a.top ≤ b.top) &&
  decide (a.right ≥ b.right) && decide (a.bottom ≥ b.bottom)

/-- DesktopRect::Translate. -/
def DRect.translate (r : DRect) (dx dy : Int) : DRect :=
  ⟨r.left + dx, r.top + dy, r.right + dx, r.bottom + dy⟩

/-- Environment of per-window OS queries used by the capturer sources:
GetWindowText, GetWindowThreadProcessId, GetAncestor, GetParent,
GetClassName, GetWindowContentRect, and the WindowCaptureHelperWin
predicates.  A window handle is a Nat; 0 stands for NULL. -/
structure WinEnv where
  isVisibleOnCurrentDesktop : Nat → Bool
  isChromeNotification : Nat → Bool
  ancestorRoot : Nat → Nat
  ancestorRootOwner : Nat → Nat
  parent : Nat → Nat
  title : Nat → String
  pid : Nat → Nat
  tid : Nat → Nat
  contentRect : Nat → Option DRect
  className : Nat → String
  hasCaptionStyle : Nat → Bool

/-- TopWindowVerifierContext of cropping_window_capturer_win.cc: the
input/output data threaded through the EnumWindows callback. -/
structure TWVContext where
  selectedWindow : Nat
  excludedWindow : Nat
  selectedRect : DRect
  selectedTitle : String
  selectedPid : Nat
  allowMag : Bool
  isTopWindow : Bool
deriving DecidableEq, Repr

/-- One invocation of the TopWindowVerifier EnumWindows callback
(cropping_window_capturer_win.cc lines 69-173).  The Bool is the
callback return: true = continue enumerating, false = stop. -/
def TopWindowVerifier (env : WinEnv) (ctx : TWVContext) (hwnd : Nat) :
    Bool × TWVContext :=
  if hwnd = ctx.selectedWindow then
    (false, {ctx with isTopWindow := true})
  else if hwnd = ctx.excludedWindow then (true, ctx)
  else if env.isVisibleOnCurrentDesktop hwnd = false then (true, ctx)
  else if env.isChromeNotification hwnd = true then (true, ctx)
  else if env.ancestorRoot hwnd = ctx.selectedWindow then (true, ctx)
  else if (((env.title hwnd).isEmpty = true ∨ env.title hwnd = ctx.selectedTitle)
           ∧ env.pid hwnd = ctx.selectedPid) then (true, ctx)
  else if (ctx.allowMag = true ∧
           env.className hwnd = "Windows.UI.Core.CoreWindow") then (true, ctx)
  else
    match env.contentRect hwnd with
    | none => (false, {ctx with isTopWindow := false})
    | some r =>
      if (r.intersect ctx.selectedRect).isEmpty = true then (true, ctx)
      else (false, {ctx with isTopWindow := false})

/-- EnumWindows / EnumChildWindows driving TopWindowVerifier over a
top-down z-ordered handle list; stops when the callback returns false. -/
def EnumWindowsTWV (env : WinEnv) (ctx : TWVContext) : List Nat → TWVContext
  | [] => ctx
  | h :: t =>
    let p := TopWindowVerifier env ctx h
    if p.1 then EnumWindowsTWV env p.2 t else p.2

/-- WindowsTopOfMeContext (cropping_window_capturer_win.cc lines
546-562): data threaded through the worker's EnumWindows callback. -/
structure WTOMContext where
  selectedWindow : Nat
  selectedRect : DRect
  selectedTitle : String
  selectedPid : Nat
  windowsTopOfMe : List Nat
deriving DecidableEq, Repr

/-- The WindowsTopOfMeContext constructor: reads the selected window's
title, process id and content rect (left at the zero rectangle if the
query fails, as the default-constructed member). -/
def WTOMContext.init (env : WinEnv) (sel : Nat) : WTOMContext :=
  { selectedWindow := sel
    selectedRect := (env.contentRect sel).getD DRect.zero
    selectedTitle := env.title sel
    selectedPid := env.pid sel
    windowsTopOfMe := [] }

/-- One invocation of the WindowsTopOfMe EnumWindows callback
(cropping_window_capturer_win.cc lines 564-615). -/
def WindowsTopOfMe (env : WinEnv) (ctx : WTOMContext) (hwnd : Nat) :
    Bool × WTOMContext :=
  if hwnd = ctx.selectedWindow then (false, ctx)
  else if env.isVisibleOnCurrentDesktop hwnd = false then (true, ctx)
  else if env.ancestorRoot hwnd = ctx.selectedWindow then (true, ctx)
  else if (((env.title hwnd).isEmpty = true ∨ env.title hwnd = ctx.selectedTitle)
           ∧ env.pid hwnd = ctx.selectedPid) then (true, ctx)
  else
    match env.contentRect hwnd with
    | none => (true, ctx)
    | some r =>
      if (r.intersect ctx.selectedRect).isEmpty = true then (true, ctx)
      else (true, {ctx with windowsTopOfMe := ctx.windowsTopOfMe ++ [hwnd]})

/-- EnumWindows driving WindowsTopOfMe over a top-down z-ordered list. -/
def EnumWindowsWTOM (env : WinEnv) (ctx : WTOMContext) : List Nat → WTOMContext
  | [] => ctx
  | h :: t =>
    let p := WindowsTopOfMe env ctx h
    if p.1 then EnumWindowsWTOM env p.2 t else p.2

/-- State of WindowsTopOfMeWorker (ignore_counter_, last_changed_,
exclusion_window_list_, core_windows_, selected_window_, thread_). -/
structure WorkerState where
  ignoreCounter : Nat
  lastChanged : Nat
  exclusionList : List Nat
  coreWindows : List Nat
  selectedWindow : Nat
  threadStarted : Bool
deriving DecidableEq, Repr

/-- WindowsTopOfMeWorker::kIgnoreCounter. -/
def kIgnoreCounter : Nat := 2

/-- WindowsTopOfMeWorker::kLastMsThreshold. -/
def kLastMsThreshold : Nat := 500

/-- The WindowsTopOfMeWorker constructor state. -/
def workerInit : WorkerState :=
  { ignoreCounter := kIgnoreCounter, lastChanged := 0, exclusionList := []
    coreWindows := [], selectedWindow := 0, threadStarted := false }

/-- Modelled from the spec: monotonic 32-bit millisecond clock
difference (rtc::Time32 of rtc_base, not under src/); unsigned 32-bit
subtraction now - last. -/
def time32sub (now last : Nat) : Nat :=
  ((now % 2 ^ 32) + 2 ^ 32 - last % 2 ^ 32) % 2 ^ 32

/-- Environment for one tick of WindowsTopOfMeWorker::Run
(cropping_window_capturer_win.cc lines 639-721): results of the
FindWindowEx class searches, the DWM cloaking query, the EnumWindows
z-order, and the taskbar lookups. -/
structure ScanEnv where
  isWindows8OrLater : Bool
  coreClassWindows : List Nat
  notCloaked : Nat → Bool
  rootWindows : List Nat
  trayWnd : Option Nat
  trayClassWindows : List Nat
  winEnv : WinEnv

/-- One iteration of the WindowsTopOfMeWorker::Run loop body: seed core
windows by class (Windows 8+, non-cloaked only), enumerate root windows
through WindowsTopOfMe, dedupe the class-seeded candidates, add
taskbar-adjacent windows, re-test remaining candidates for overlap, and
stamp last_changed_ when the exclusion list differs. -/
def WorkerRunOnce (env : ScanEnv) (s : WorkerState) (now : Nat) : WorkerState :=
  let windows0 : List Nat :=
    if env.isWindows8OrLater then
      env.coreClassWindows.filter (fun h => env.notCloaked h)
    else []
  let coreW : List Nat := if env.isWindows8OrLater then windows0 else s.coreWindows
  let ctx :=
    EnumWindowsWTOM env.winEnv (WTOMContext.init env.winEnv s.selectedWindow)
      env.rootWindows
  let windows1 := ctx.windowsTopOfMe.foldl (fun ws h => ws.erase h) windows0
  let windows2 : List Nat :=
    match env.trayWnd with
    | some t =>
      if env.winEnv.isVisibleOnCurrentDesktop t then
        (if ctx.windowsTopOfMe.contains t then windows1 else windows1 ++ [t]) ++
          env.trayClassWindows.filter (fun h =>
            !(ctx.windowsTopOfMe.contains h) &&
              env.winEnv.isVisibleOnCurrentDesktop h)
      else windows1
    | none => windows1
  let extra := windows2.filter (fun h =>
    match env.winEnv.contentRect h with
    | some r => !((r.intersect ctx.selectedRect).isEmpty)
    | none => false)
  let finalList := ctx.windowsTopOfMe ++ extra
  if s.exclusionList = finalList then {s with coreWindows := coreW}
  else {s with coreWindows := coreW, exclusionList := finalList, lastChanged := now}

/-- WindowsTopOfMeWorker::SelectWindow (lines 627-637): bind the worker
to a new handle; when the magnifier path is in use run one synchronous
scan, otherwise clear the exclusion list and zero the change stamp;
always re-arm the ignore counter. -/
def SelectWindow (scanEnv : ScanEnv) (now : Nat) (s : WorkerState)
    (window : Nat) (isUsingMagnifier : Bool) : WorkerState :=
  let s1 := {s with selectedWindow := window}
  let s2 :=
    if isUsingMagnifier then WorkerRunOnce scanEnv s1 now
    else {s1 with exclusionList := [], lastChanged := 0}
  {s2 with ignoreCounter := kIgnoreCounter}

/-- WindowsTopOfMeWorker::IsChanged (lines 723-737): the first
ignore_counter_ calls return false and decrement the counter; afterwards
the worker thread is lazily started and the call compares the 32-bit
clock distance from last_changed_ with the window. -/
def IsChanged (s : WorkerState) (now inLastMs : Nat) : Bool × WorkerState :=
  if s.ignoreCounter > 0 then
    (false, {s with ignoreCounter := s.ignoreCounter - 1})
  else
    (decide (time32sub now s.lastChanged < inLastMs),
     {s with threadStarted := true})

/-- Snapshot stored by the SelectedWindowContext constructor
(selected_window_context.cc lines 15-24): the selected handle and its
thread and process ids. -/
structure SelWinCtx where
  selectedWindow : Nat
  selectedPid : Nat
  selectedTid : Nat
deriving DecidableEq, Repr

/-- SelectedWindowContext::IsWindowOwned (selected_window_context.cc
lines 34-49): owned iff the GA_ROOTOWNER ancestor is the selected
window, or the window lives on the selected window's thread and
process. -/
def IsWindowOwned (env : WinEnv) (c : SelWinCtx) (hwnd : Nat) : Bool :=
  if env.ancestorRootOwner hwnd = c.selectedWindow then true
  else if (env.tid hwnd ≠ 0 ∧ env.pid hwnd = c.selectedPid ∧
           env.tid hwnd = c.selectedTid) then true
  else false

/-- GetLayeredWindowAttributes output: the LWA_COLORKEY flag, the
LWA_ALPHA flag, and the alpha byte. -/
structure LayeredAttrs where
  colorKeyFlag : Bool
  alphaFlag : Bool
  alpha : Nat
deriving DecidableEq, Repr

/-- Result of GetWindowRegionTypeWithBoundary: ERROR, NULLREGION,
SIMPLEREGION (with the region box in window coordinates), or
COMPLEXREGION. -/
inductive RegionResult where
  | rgnError : RegionResult
  | rgnNull : RegionResult
  | rgnSimple : DRect → RegionResult
  | rgnComplex : RegionResult
deriving DecidableEq, Repr

/-- Environment of CroppingWindowCapturerWin::ShouldUseScreenCapturer
(cropping_window_capturer_win.cc lines 414-530): platform predicates,
the selected window's layered attributes and region, the full-screen
rectangle, and the z-ordered root and child window lists fed to
EnumWindows / EnumChildWindows. -/
structure SUSCEnv where
  isWindows8OrLater : Bool
  isAeroEnabled : Bool
  winEnv : WinEnv
  selected : Nat
  excluded : Nat
  hasLayeredStyle : Bool
  layeredAttrs : Option LayeredAttrs
  regionResult : RegionResult
  fullscreenRect : DRect
  rootWindows : List Nat
  childWindows : List Nat
  allowMagnification : Bool

/-- The translucent-layered-window refusal (lines 432-450): a layered
window is refused when its attributes are unreadable, a color key is
active, or a per-window alpha below 255 is active. -/
def translucentLayered (env : SUSCEnv) : Bool :=
  if env.hasLayeredStyle = false then false
  else
    match env.layeredAttrs with
    | none => true
    | some a =>
      if (a.colorKeyFlag = true ∨ (a.alphaFlag = true ∧ a.alpha < 255)) then true
      else false

/-- The worker core-windows overlap check (lines 506-516): performed
only when the worker exists and the platform is Windows 8+; any core
window with a measurable content rect intersecting the selected rect
blocks the screen capturer. -/
def coreWindowsBlock (env : SUSCEnv) (worker : Option WorkerState)
    (selRect : DRect) : Bool :=
  match worker with
  | none => false
  | some w =>
    if env.isWindows8OrLater = false then false
    else
      w.coreWindows.any (fun h =>
        match env.winEnv.contentRect h with
        | some r => !((r.intersect selRect).isEmpty)
        | none => false)

/-- The tail of ShouldUseScreenCapturer after the region handling
(lines 489-529): full-screen containment, the core-windows check, the
EnumWindows occlusion scan, and the EnumChildWindows re-scan. -/
def suscTail (env : SUSCEnv) (worker : Option WorkerState)
    (contentRect : DRect) : Bool :=
  if env.fullscreenRect.containsRect contentRect = false then false
  else if coreWindowsBlock env worker contentRect = true then false
  else
    let ctx0 : TWVContext :=
      { selectedWindow := env.selected, excludedWindow := env.excluded
        selectedRect := contentRect
        selectedTitle := env.winEnv.title env.selected
        selectedPid := env.winEnv.pid env.selected
        allowMag := env.allowMagnification && env.isWindows8OrLater
        isTopWindow := false }
    let ctx1 := EnumWindowsTWV env.winEnv ctx0 env.rootWindows
    if ctx1.isTopWindow = false then false
    else (EnumWindowsTWV env.winEnv ctx1 env.childWindows).isTopWindow

/-- The uncached body of ShouldUseScreenCapturer (lines 421-529),
threading window_region_rect_ through (the SIMPLEREGION branch shrinks
the member, line 485).  Takes the current window_region_rect_ and the
worker (whose core_windows feed the overlap check). -/
def ShouldUseScreenCapturerUncached (env : SUSCEnv) (wrr0 : DRect)
    (worker : Option WorkerState) : Bool × DRect :=
  if !env.isWindows8OrLater && env.isAeroEnabled then (false, wrr0)
  else if env.winEnv.isVisibleOnCurrentDesktop env.selected = false then
    (false, wrr0)
  else if translucentLayered env = true then (false, wrr0)
  else if wrr0 = DRect.zero then (false, wrr0)
  else
    match env.winEnv.contentRect env.selected with
    | none => (false, wrr0)
    | some cr0 =>
      match env.regionResult with
      | RegionResult.rgnComplex => (false, wrr0)
      | RegionResult.rgnNull => (false, wrr0)
      | RegionResult.rgnError => (suscTail env worker cr0, wrr0)
      | RegionResult.rgnSimple r =>
        let r2 := r.translate wrr0.left wrr0.top
        let wrr1 := wrr0.intersect r2
        let cr1 := cr0.intersect r2
        (suscTail env worker cr1, wrr1)

/-- should_use_screen_capturer_cache_ (BoolCache enum): Empty, False,
True. -/
inductive BCache where
  | empty : BCache
  | bfalse : BCache
  | btrue : BCache
deriving DecidableEq, Repr

/-- ShouldUseScreenCapturer with the cache short-circuit (lines
415-417). -/
def ShouldUseScreenCapturerCached (env : SUSCEnv) (wrr : DRect)
    (worker : Option WorkerState) (cache : BCache) : Bool × DRect :=
  match cache with
  | BCache.btrue => (true, wrr)
  | BCache.bfalse => (false, wrr)
  | BCache.empty => ShouldUseScreenCapturerUncached env wrr worker

/-- The Capturer enum of CroppingWindowCapturerWin. -/
inductive Capturer where
  | unknown : Capturer
  | screen : Capturer
  | magnifier : Capturer
  | window : Capturer
deriving DecidableEq, Repr

/-- DesktopCapturer::Result. -/
inductive CResult where
  | success : CResult
  | errorTemporary : CResult
  | errorPermanent : CResult
deriving DecidableEq, Repr

/-- The part of a DesktopFrame the state machine observes: its top-left
position in virtual-screen coordinates. -/
structure Frame where
  topLeft : Int × Int
deriving DecidableEq, Repr

/-- Observable actions of CaptureFrame / OnCaptureResult: a call into
CroppingWindowCapturer::OnCaptureResult (forwarding a result and an
optional frame to the consumer; the base class reads
ShouldUseScreenCapturer, i.e. the cache, at that moment, so the cache
value at the call is recorded), a Sleep, and the delegation to
CroppingWindowCapturer::CaptureFrame (whose backend choice is driven by
the cache value at the call). -/
inductive CropEvent where
  | onResult : BCache → CResult → Option Frame → CropEvent
  | sleepMs : Nat → CropEvent
  | delegateBase : BCache → Capturer → CropEvent
deriving DecidableEq, Repr

/-- Mutable state of CroppingWindowCapturerWin. -/
structure CropState where
  capturer : Capturer
  cache : BCache
  cantGetMagWorker : Bool
  hasMagWorker : Bool
  selectedShouldUseMagnifier : Bool
  worker : Option WorkerState
  windowRegionRect : DRect
  offset : Int × Int
deriving DecidableEq, Repr

/-- Result of running one method: the final member state, the emitted
observable actions in order, and whether a null-frame dereference
occurred (the method never returns in that case). -/
structure StepOut where
  state : CropState
  events : List CropEvent
  crashed : Bool
deriving DecidableEq, Repr

/-- Per-frame environment of CaptureFrame / OnCaptureResult: the
GetWindowRect outcome, the clock values at the IsChanged calls, the
ShouldUseScreenCapturer environment, the worker-scan environment for a
lazily created worker, and the magnifier-worker collaborators. -/
structure FrameEnv where
  getWindowRect : Option DRect
  scanEnv : ScanEnv
  nowSelect : Nat
  nowCapture : Nat
  nowResult : Nat
  susc : SUSCEnv
  magRectVSEmpty : Bool
  magWorkerAvailable : Bool
  magOutcome : Option (CResult × Option Frame)

/-- window_region_rect_ as assigned at the top of CaptureFrame (lines
784-787): GetWindowRect, or the zero rect on failure. -/
def wrrOf (env : FrameEnv) : DRect :=
  match env.getWindowRect with
  | some r => r
  | none => DRect.zero

/-- CroppingWindowCapturerWin::ShouldUseMagnifier (lines 532-544). -/
def ShouldUseMagnifier (env : FrameEnv) (s : CropState) : Bool :=
  if env.susc.allowMagnification = false then false
  else if (s.selectedShouldUseMagnifier = true ∧ s.hasMagWorker = true ∧
           env.magRectVSEmpty = true) then false
  else s.selectedShouldUseMagnifier

/-- CroppingWindowCapturerWin::OnCaptureResult tail (lines 874-881):
the magnifier offset fix-up — dereferencing the delivered frame without
a null check — followed by forwarding to the base class and the cache
reset. -/
def OnCaptureResultTail (s : CropState) (result : CResult)
    (frame : Option Frame) : StepOut :=
  if s.capturer = Capturer.magnifier then
    match frame with
    | none => ⟨s, [], true⟩
    | some f =>
      let s2 := {s with offset := f.topLeft}
      ⟨{s2 with cache := BCache.empty},
       [CropEvent.onResult s2.cache result (some ⟨(0, 0)⟩)], false⟩
  else
    ⟨{s with cache := BCache.empty},
     [CropEvent.onResult s.cache result frame], false⟩

/-- CroppingWindowCapturerWin::OnCaptureResult (lines 858-881): pin the
cache to True, re-check the debounce, and either drop the frame with a
temporary error or forward it; the cache is reset to Empty on both
returns. -/
def OnCaptureResult (env : FrameEnv) (s0 : CropState) (result : CResult)
    (frame : Option Frame) : StepOut :=
  let s := {s0 with cache := BCache.btrue}
  match s.worker with
  | some w =>
    let p := IsChanged w env.nowResult kLastMsThreshold
    let s1 := {s with worker := some p.2}
    if p.1 then
      ⟨{s1 with cache := BCache.empty},
       [CropEvent.onResult BCache.btrue CResult.errorTemporary none], false⟩
    else OnCaptureResultTail s1 result frame
  | none => OnCaptureResultTail s result frame

/-- CroppingWindowCapturerWin::CaptureFrameUsingMagnifierApi (lines
739-749): false without effect when the magnifier worker is absent;
otherwise set capturer_ = Magnifier and run the magnifier capture,
which either fails without a callback (false) or synchronously invokes
OnCaptureResult on this object (true). -/
def CaptureFrameUsingMagnifierApi (env : FrameEnv) (s : CropState) :
    Bool × StepOut :=
  if s.hasMagWorker = false then (false, ⟨s, [], false⟩)
  else
    let s1 := {s with capturer := Capturer.magnifier}
    match env.magOutcome with
    | none => (false, ⟨s1, [], false⟩)
    | some rf => (true, OnCaptureResult env s1 rf.1 rf.2)

/-- The tail of CaptureFrame (lines 831-856): the transition-to-screen
hysteresis (sleep, switch to Screen, drop the frame with a temporary
error), or the normal dispatch that sets capturer_ from the cache and
delegates to the base class; the cache is reset to Empty on both
returns. -/
def CaptureFrameRest (s : CropState) : StepOut :=
  if (s.capturer ≠ Capturer.unknown ∧ s.capturer ≠ Capturer.screen ∧
      s.cache = BCache.btrue) then
    let s2 := {s with capturer := Capturer.screen}
    ⟨{s2 with cache := BCache.empty},
     [CropEvent.sleepMs 34,
      CropEvent.onResult s2.cache CResult.errorTemporary none], false⟩
  else
    let cap :=
      match s.cache with
      | BCache.btrue => Capturer.screen
      | BCache.bfalse => Capturer.window
      | BCache.empty => Capturer.unknown
    ⟨{s with capturer := cap, cache := BCache.empty},
     [CropEvent.delegateBase s.cache cap], false⟩

/-- CaptureFrame after the debounce check (lines 812-856): compute and
cache the screen-eligibility decision, try the magnifier path when it
applies, then run the hysteresis / dispatch tail. -/
def CaptureFrameBody (env : FrameEnv) (s0 : CropState) : StepOut :=
  let pr := ShouldUseScreenCapturerCached env.susc s0.windowRegionRect
              s0.worker s0.cache
  let s := {s0 with windowRegionRect := pr.2,
                    cache := if pr.1 then BCache.btrue else BCache.bfalse}
  if (ShouldUseMagnifier env s = true ∧ s.cantGetMagWorker = false) then
    if s.cache = BCache.bfalse then
      let s1 :=
        if s.hasMagWorker = false then
          {s with hasMagWorker := env.magWorkerAvailable,
                  cantGetMagWorker := !env.magWorkerAvailable}
        else s
      let q := CaptureFrameUsingMagnifierApi env s1
      if q.1 then q.2 else CaptureFrameRest q.2.state
    else CaptureFrameRest s
  else CaptureFrameRest s

/-- CroppingWindowCapturerWin::CaptureFrame (lines 783-856): refresh
window_region_rect_, lazily create and bind the worker, run the
debounce check (dropping the frame with a temporary error while
pinning the cache to True around the emission), then the body. -/
def CaptureFrame (env : FrameEnv) (s0 : CropState) : StepOut :=
  let s1 : CropState := {s0 with windowRegionRect := wrrOf env}
  let w0 : Option WorkerState :=
    if env.susc.allowMagnification && s1.worker.isNone then
      some (SelectWindow env.scanEnv env.nowSelect workerInit env.susc.selected
              s1.selectedShouldUseMagnifier)
    else s1.worker
  let s2 : CropState := {s1 with worker := w0}
  match w0 with
  | some w =>
    let p := IsChanged w env.nowCapture kLastMsThreshold
    let s3 := {s2 with worker := some p.2}
    if p.1 then
      ⟨{s3 with cache := BCache.empty},
       [CropEvent.onResult BCache.btrue CResult.errorTemporary none], false⟩
    else CaptureFrameBody env s3
  | none => CaptureFrameBody env s2

/-- State of WindowCapturerWin used by selection and capture: the bound
handle (0 = nullptr), the remembered size, and the frame counter. -/
structure WCState where
  window : Nat
  previousSize : Nat × Nat
  frameCounter : Nat
deriving DecidableEq, Repr

/-- Environment of WindowCapturerWin::SelectSource and of
CroppingWindowCapturerWin::SelectSource for one candidate handle:
IsWindow / IsWindowVisible / IsIconic, the remembered-size map lookup,
GetClassName, the platform, and the Intermediate D3D child search. -/
structure SelEnv where
  isWindow : Bool
  isWindowVisible : Bool
  isIconic : Bool
  sizeMap : Nat → Nat × Nat
  className : String
  isWindows8OrLater : Bool
  childContainsD3D : Bool

/-- WindowCapturerWin::SelectSource (window_capturer_win.cc lines
185-195): fail without touching the binding unless the handle is a
valid, visible, non-minimized window; on success bind it, load the
remembered size and reset the frame counter.  (The side insertion of a
default entry into window_size_map_ is not observable here and is
omitted.) -/
def WCSelectSource (env : SelEnv) (s : WCState) (id : Nat) : Bool × WCState :=
  if (env.isWindow = false ∨ env.isWindowVisible = false ∨
      env.isIconic = true) then (false, s)
  else
    (true, {s with window := id, previousSize := env.sizeMap id,
                   frameCounter := 0})

/-- Combined selection state: the Win-specific members, the window
backend, and the base-class selected-window binding. -/
structure SelectState where
  crop : CropState
  wc : WCState
  selectedWindow : Nat
deriving DecidableEq, Repr

/-- CroppingWindowCapturerWin::SelectSource (lines 751-781): reset
capturer_, classify the window for the magnifier path, rebind the
worker when present, and forward to the base selection.  Modelled from
the spec: the base CroppingWindowCapturer::SelectSource (not under
src/) forwards to the window backend selection and updates the
selected-window binding only on success. -/
def CroppingSelectSource (env : SelEnv) (scanEnv : ScanEnv) (now : Nat)
    (s : SelectState) (id : Nat) : Bool × SelectState :=
  let crop0 := {s.crop with capturer := Capturer.unknown}
  let m1 := env.isWindows8OrLater && (env.className == "ApplicationFrameWindow")
  let m2 := if !m1 && (env.className == "screenClass") then true else m1
  let m3 := if !m2 && env.childContainsD3D then true else m2
  let crop1 := {crop0 with selectedShouldUseMagnifier := m3}
  let crop2 :=
    match crop1.worker with
    | some w => {crop1 with worker := some (SelectWindow scanEnv now w id m3)}
    | none => crop1
  let p := WCSelectSource env s.wc id
  (p.1, { crop := crop2, wc := p.2,
          selectedWindow := if p.1 then id else s.selectedWindow })

/-- Environment of WindowCapturerWin::CaptureFrame: IsWindow on the
bound handle, the GetCroppedWindowRect outcome (cropped rect, original
rect), visibility, and the outcome of the device-dependent GDI /
graphics tail (frame counter, PrintWindow / BitBlt), which the claims
do not observe and which is supplied by the environment. -/
structure WCFrameEnv where
  isWindow : Bool
  croppedOriginal : Option (DRect × DRect)
  visibleOnDesktop : Bool
  laterOutcome : CResult × Option (Nat × Nat)

/-- WindowCapturerWin::CaptureFrame head (window_capturer_win.cc lines
221-258): permanent errors for a missing or closed window, a temporary
error when the drawable area cannot be read, and a SUCCESS 1x1 frame
when the original rect is empty or the window is invisible on the
current desktop; otherwise the GDI / graphics tail runs.  The result is
the (result, frame size) pair delivered to the callback. -/
def WCCaptureFrame (env : WCFrameEnv) (s : WCState) :
    CResult × Option (Nat × Nat) :=
  if s.window = 0 then (CResult.errorPermanent, none)
  else if env.isWindow = false then (CResult.errorPermanent, none)
  else
    match env.croppedOriginal with
    | none => (CResult.errorTemporary, none)
    | some co =>
      if (co.2.isEmpty = true ∨ env.visibleOnDesktop = false) then
        (CResult.success, some (1, 1))
      else env.laterOutcome

/- Concrete window worlds used by counterexamples and witnesses.
   Window 1 is the selected window (title "Main", process 10, thread
   20).  Window 2 is a dialog owned by window 1 (GA_ROOTOWNER = 1, its
   own GA_ROOT, distinct title) overlapping it.  Window 7 is a foreign
   window whose content rect cannot be measured. -/

def winEnvA : WinEnv :=
  { isVisibleOnCurrentDesktop := fun h => h == 1 || h == 2 || h == 7
    isChromeNotification := fun _ => false
    ancestorRoot := fun h => h
    ancestorRootOwner := fun h => if h = 2 then 1 else h
    parent := fun _ => 0
    title := fun h =>
      if h = 1 then "Main" else if h = 2 then "Dialog"
      else if h = 7 then "Other" else ""
    pid := fun h => if h = 1 then 10 else if h = 2 then 10 else 99
    tid := fun h => if h = 1 then 20 else if h = 2 then 21 else 30
    contentRect := fun h =>
      if h = 1 then some ⟨10, 10, 90, 90⟩
      else if h = 2 then some ⟨50, 50, 120, 120⟩ else none
    className := fun _ => "Foo"
    hasCaptionStyle := fun _ => false }

/-- A scan environment with no class-seeded candidates and no taskbar:
only the EnumWindows pass contributes. -/
def scanEnvA : ScanEnv :=
  { isWindows8OrLater := false, coreClassWindows := [], notCloaked := fun _ => true
    rootWindows := [2, 1], trayWnd := none, trayClassWindows := []
    winEnv := winEnvA }

/-- A trivial scan environment (empty z-order). -/
def scanEnvTriv : ScanEnv :=
  { isWindows8OrLater := false, coreClassWindows := [], notCloaked := fun _ => true
    rootWindows := [], trayWnd := none, trayClassWindows := []
    winEnv := winEnvA }

/-- ShouldUseScreenCapturer environment in which every eligibility
check passes: Windows 7 without Aero, visible non-layered selected
window with a simple region, fully on screen, and the selected window
first in the z-order. -/
def suscEnvA : SUSCEnv :=
  { isWindows8OrLater := false, isAeroEnabled := false, winEnv := winEnvA
    selected := 1, excluded := 0, hasLayeredStyle := false
    layeredAttrs := none, regionResult := RegionResult.rgnSimple ⟨0, 0, 100, 100⟩
    fullscreenRect := ⟨0, 0, 1920, 1080⟩, rootWindows := [1], childWindows := []
    allowMagnification := false }

/- ------------------------------------------------------------------ -/
/- C1: the Windows < 8 / Aero eligibility check.                       -/
/- ------------------------------------------------------------------ -/

/-- C1 counterexample: the claim says ShouldUseScreenCapturer returns
false whenever the platform is Windows < 8 and Aero is NOT enabled.  In
the code (line 421) the check is `!IsWindows8OrLater() &&
IsAeroEnabled()`: with Aero disabled on Windows 7 the check passes, and
in a world where every later check passes the whole predicate returns
true, refuting the claim at a concrete input. -/
theorem c1_counterexample :
    suscEnvA.isWindows8OrLater = false ∧ suscEnvA.isAeroEnabled = false ∧
    (ShouldUseScreenCapturerUncached suscEnvA ⟨0, 0, 100, 100⟩ none).1 = true := by
  decide

/-- C1 (amended): ShouldUseScreenCapturer returns false whenever the
platform is Windows < 8 and Aero IS enabled; on Windows < 8 with Aero
disabled this first eligibility check does not by itself force a false
result (witnessed by a world where the predicate returns true). -/
theorem c1_amended :
    (∀ (env : SUSCEnv) (wrr : DRect) (w : Option WorkerState),
      env.isWindows8OrLater = false → env.isAeroEnabled = true →
      (ShouldUseScreenCapturerUncached env wrr w).1 = false) ∧
    (suscEnvA.isWindows8OrLater = false ∧ suscEnvA.isAeroEnabled = false ∧
      (ShouldUseScreenCapturerUncached suscEnvA ⟨0, 0, 100, 100⟩ none).1 = true) := by
  constructor
  · intro env wrr w h8 ha
    simp [ShouldUseScreenCapturerUncached, h8, ha]
  · decide

/-- Witness for c1_amended at a concrete environment. -/
theorem c1_amended_witness :
    (ShouldUseScreenCapturerUncached
      {suscEnvA with isAeroEnabled := true} ⟨0, 0, 100, 100⟩ none).1 = false :=
  c1_amended.1 {suscEnvA with isAeroEnabled := true} ⟨0, 0, 100, 100⟩ none rfl rfl

/- ------------------------------------------------------------------ -/
/- C2: unreadable content rect in the occlusion scan.                  -/
/- ------------------------------------------------------------------ -/

/-- The TopWindowVerifier context for selected window 1 with no
excluded window, as built at cropping_window_capturer_win.cc line 500. -/
def ctxC2 : TWVContext :=
  { selectedWindow := 1, excludedWindow := 0, selectedRect := ⟨10, 10, 90, 90⟩
    selectedTitle := "Main", selectedPid := 10, allowMag := false
    isTopWindow := false }

/-- C2 counterexample: window 7 is not the selected window, is not
skipped by any earlier check, and its content rect cannot be measured.
The claim says the scan continues past it (so the selected window 1,
next in z-order, would be reached and is_top_window would become true).
In the code (lines 157-162) the callback bails out with is_top_window =
false instead. -/
theorem c2_counterexample :
    winEnvA.contentRect 7 = none ∧
    winEnvA.isVisibleOnCurrentDesktop 7 = true ∧
    winEnvA.isChromeNotification 7 = false ∧
    winEnvA.ancestorRoot 7 ≠ ctxC2.selectedWindow ∧
    ¬(((winEnvA.title 7).isEmpty = true ∨ winEnvA.title 7 = ctxC2.selectedTitle)
        ∧ winEnvA.pid 7 = ctxC2.selectedPid) ∧
    (EnumWindowsTWV winEnvA ctxC2 [7, 1]).isTopWindow = false := by
  decide

/-- C2 (amended): during the occlusion scan, for every enumerated
window h that is not the selected window and not otherwise skipped, if
the content rectangle of h cannot be measured the scan halts
immediately with is_top_window = false (the failure biases toward the
window backend), rather than treating h as non-overlapping. -/
theorem c2_amended (env : WinEnv) (ctx : TWVContext) (h : Nat)
    (h1 : h ≠ ctx.selectedWindow) (h2 : h ≠ ctx.excludedWindow)
    (h3 : env.isVisibleOnCurrentDesktop h = true)
    (h4 : env.isChromeNotification h = false)
    (h5 : env.ancestorRoot h ≠ ctx.selectedWindow)
    (h6 : ¬(((env.title h).isEmpty = true ∨ env.title h = ctx.selectedTitle)
            ∧ env.pid h = ctx.selectedPid))
    (h7 : ¬(ctx.allowMag = true ∧
            env.className h = "Windows.UI.Core.CoreWindow"))
    (h8 : env.contentRect h = none) :
    TopWindowVerifier env ctx h = (false, {ctx with isTopWindow := false}) := by
  simp [TopWindowVerifier, h1, h2, h3, h4, h5, h6, h7, h8]

/-- Witness for c2_amended at window 7 of the concrete world. -/
theorem c2_amended_witness :
    TopWindowVerifier winEnvA ctxC2 7 = (false, {ctxC2 with isTopWindow := false}) :=
  c2_amended winEnvA ctxC2 7 (by decide) (by decide) (by decide) (by decide)
    (by decide) (by decide) (by decide) (by decide)

/- ------------------------------------------------------------------ -/
/- C3: IsChanged and the ignore counter.                               -/
/- ------------------------------------------------------------------ -/

/-- The worker state right after SelectWindow(1, false): the exclusion
list is cleared, last_changed_ is zeroed, and the ignore counter is
re-armed to kIgnoreCounter = 2. -/
def workerC3 : WorkerState := SelectWindow scanEnvTriv 0 workerInit 1 false

/-- C3 counterexample: immediately after a (re)selection, now -
last_changed_ = 100 < 500, so the claim demands IsChanged(500) = true;
the code (lines 723-727) returns false because the ignore counter is
still positive. -/
theorem c3_counterexample :
    time32sub 100 workerC3.lastChanged < 500 ∧
    (IsChanged workerC3 100 500).1 = false := by
  decide

/-- C3 (amended): IsChanged(window_ms) returns true iff now -
last_changed_ < window_ms only once the ignore counter has reached
zero; each of the first kIgnoreCounter = 2 calls after the source is
(re)selected returns false unconditionally and decrements the
counter. -/
theorem c3_amended :
    (∀ (s : WorkerState) (now win : Nat), s.ignoreCounter = 0 →
      ((IsChanged s now win).1 = true ↔ time32sub now s.lastChanged < win)) ∧
    (∀ (s : WorkerState) (now win : Nat), 0 < s.ignoreCounter →
      (IsChanged s now win).1 = false ∧
      (IsChanged s now win).2.ignoreCounter = s.ignoreCounter - 1) ∧
    (∀ (scanEnv : ScanEnv) (now : Nat) (s : WorkerState) (w : Nat)
       (mag : Bool),
      (SelectWindow scanEnv now s w mag).ignoreCounter = kIgnoreCounter) := by
  refine ⟨?_, ?_, ?_⟩
  · intro s now win h0
    simp [IsChanged, h0]
  · intro s now win hpos
    simp [IsChanged, hpos]
  · intro scanEnv now s w mag
    simp [SelectWindow]

/-- Witness for c3_amended at concrete worker states. -/
theorem c3_amended_witness :
    ((IsChanged {workerC3 with ignoreCounter := 0} 100 500).1 = true ↔
      time32sub 100 workerC3.lastChanged < 500) ∧
    (IsChanged workerC3 100 500).1 = false :=
  ⟨c3_amended.1 {workerC3 with ignoreCounter := 0} 100 500 rfl,
   (c3_amended.2.1 workerC3 100 500 (by decide)).1⟩

/- ------------------------------------------------------------------ -/
/- C5: owned windows and the exclusion set.                            -/
/- ------------------------------------------------------------------ -/

/-- The SelectedWindowContext snapshot for selected window 1. -/
def swcA : SelWinCtx := { selectedWindow := 1, selectedPid := 10, selectedTid := 20 }

/-- The worker bound to window 1 before a tick. -/
def workerC5 : WorkerState := {workerInit with selectedWindow := 1}

/-- C5 counterexample: window 2 has GA_ROOTOWNER ancestor 1 (the
selected window), so IsWindowOwned(2) is true; yet a worker tick
inserts it into the exclusion set, because the WindowsTopOfMe callback
skips only windows whose GA_ROOT ancestor is the selected window or
whose title is empty or equal with a matching process id — window 2 is
its own root and is titled "Dialog". -/
theorem c5_counterexample :
    winEnvA.ancestorRootOwner 2 = swcA.selectedWindow ∧
    IsWindowOwned winEnvA swcA 2 = true ∧
    (WorkerRunOnce scanEnvA workerC5 1000).exclusionList.contains 2 = true := by
  decide

/-- C5 (amended): for every window W whose GA_ROOTOWNER ancestor is the
selected window, IsWindowOwned(W) is true; but the per-tick scan does
not consult IsWindowOwned: its callback only skips the selected window
itself, invisible windows, windows whose GA_ROOT ancestor is the
selected window, and windows with an empty or matching title in the
selected window's process — so an owned window that is its own root and
carries a distinct title is appended to the exclusion set whenever it
is visible and overlapping. -/
theorem c5_amended :
    (∀ (env : WinEnv) (c : SelWinCtx) (w : Nat),
      env.ancestorRootOwner w = c.selectedWindow →
      IsWindowOwned env c w = true) ∧
    (∀ (env : WinEnv) (ctx : WTOMContext) (w : Nat) (r : DRect),
      w ≠ ctx.selectedWindow →
      env.isVisibleOnCurrentDesktop w = true →
      env.ancestorRoot w ≠ ctx.selectedWindow →
      ¬(((env.title w).isEmpty = true ∨ env.title w = ctx.selectedTitle)
          ∧ env.pid w = ctx.selectedPid) →
      env.contentRect w = some r →
      (r.intersect ctx.selectedRect).isEmpty = false →
      (WindowsTopOfMe env ctx w).2.windowsTopOfMe =
        ctx.windowsTopOfMe ++ [w]) := by
  constructor
  · intro env c w h
    simp [IsWindowOwned, h]
  · intro env ctx w r h1 h2 h3 h4 h5 h6
    simp [WindowsTopOfMe, h1, h2, h3, h4, h5, h6]

/-- Witness for c5_amended at window 2 of the concrete world. -/
theorem c5_amended_witness :
    IsWindowOwned winEnvA swcA 2 = true ∧
    (WindowsTopOfMe winEnvA (WTOMContext.init winEnvA 1) 2).2.windowsTopOfMe
      = [2] :=
  ⟨c5_amended.1 winEnvA swcA 2 (by decide),
   c5_amended.2 winEnvA (WTOMContext.init winEnvA 1) 2 ⟨50, 50, 120, 120⟩
     (by decide) (by decide) (by decide) (by decide) (by decide) (by decide)⟩

/- ------------------------------------------------------------------ -/
/- Shared facts about the state machine.                               -/
/- ------------------------------------------------------------------ -/

/-- Every non-crashing exit of the OnCaptureResult tail leaves the
cache Empty. -/
theorem OnCaptureResultTail_spec (s : CropState) (r : CResult) (f : Option Frame) :
    (OnCaptureResultTail s r f).crashed = true ∨
    (OnCaptureResultTail s r f).state.cache = BCache.empty := by
  by_cases hc : s.capturer = Capturer.magnifier
  · cases f with
    | none => exact Or.inl (by simp [OnCaptureResultTail, hc])
    | some fr => exact Or.inr (by simp [OnCaptureResultTail, hc])
  · exact Or.inr (by simp [OnCaptureResultTail, hc])

/-- Every non-crashing exit of OnCaptureResult leaves the cache
Empty. -/
theorem OnCaptureResult_spec (env : FrameEnv) (s : CropState) (r : CResult)
    (f : Option Frame) :
    (OnCaptureResult env s r f).crashed = true ∨
    (OnCaptureResult env s r f).state.cache = BCache.empty := by
  unfold OnCaptureResult
  dsimp only
  split
  · split
    · exact Or.inr rfl
    · exact OnCaptureResultTail_spec _ r f
  · exact OnCaptureResultTail_spec _ r f

/-- Both exits of the CaptureFrame tail leave the cache Empty and never
crash. -/
theorem CaptureFrameRest_spec (s : CropState) :
    (CaptureFrameRest s).state.cache = BCache.empty ∧
    (CaptureFrameRest s).crashed = false := by
  unfold CaptureFrameRest
  split <;> exact ⟨rfl, rfl⟩

/-- When the magnifier capture reports success it ends in a state
produced by OnCaptureResult: a crash or an Empty cache. -/
theorem CaptureFrameUsingMagnifierApi_spec (env : FrameEnv) (s : CropState)
    (h : (CaptureFrameUsingMagnifierApi env s).1 = true) :
    (CaptureFrameUsingMagnifierApi env s).2.crashed = true ∨
    (CaptureFrameUsingMagnifierApi env s).2.state.cache = BCache.empty := by
  by_cases hmw : s.hasMagWorker = false
  · simp [CaptureFrameUsingMagnifierApi, hmw] at h
  · cases ho : env.magOutcome with
    | none => simp [CaptureFrameUsingMagnifierApi, hmw, ho] at h
    | some rf =>
      simp only [CaptureFrameUsingMagnifierApi, ho]
      rw [if_neg hmw]
      exact OnCaptureResult_spec env _ rf.1 rf.2

/-- Every non-crashing exit of the CaptureFrame body leaves the cache
Empty. -/
theorem CaptureFrameBody_spec (env : FrameEnv) (s : CropState) :
    (CaptureFrameBody env s).crashed = true ∨
    (CaptureFrameBody env s).state.cache = BCache.empty := by
  unfold CaptureFrameBody
  dsimp only
  repeat' split
  all_goals
    first
      | exact Or.inr (CaptureFrameRest_spec _).1
      | exact CaptureFrameUsingMagnifierApi_spec env _ (by assumption)

/-- Every non-crashing exit of CaptureFrame leaves the cache Empty. -/
theorem CaptureFrame_spec (env : FrameEnv) (s : CropState) :
    (CaptureFrame env s).crashed = true ∨
    (CaptureFrame env s).state.cache = BCache.empty := by
  unfold CaptureFrame
  dsimp only
  split
  · split
    · exact Or.inr rfl
    · exact CaptureFrameBody_spec env _
  · exact CaptureFrameBody_spec env _

/- ------------------------------------------------------------------ -/
/- C4: the cache is restored to Empty on every exit path.              -/
/- ------------------------------------------------------------------ -/

/-- C4: on every exit path of CaptureFrame and of OnCaptureResult — the
debounce drops, the magnifier delegation (whose synchronous callback
runs OnCaptureResult), the hysteresis transition, and the normal
dispatch — should_use_screen_capturer_cache_ has been returned to Empty
before the method returns. -/
theorem c4_cache_restored :
    (∀ (env : FrameEnv) (s : CropState),
      (CaptureFrame env s).crashed = false →
      (CaptureFrame env s).state.cache = BCache.empty) ∧
    (∀ (env : FrameEnv) (s : CropState) (r : CResult) (f : Option Frame),
      (OnCaptureResult env s r f).crashed = false →
      (OnCaptureResult env s r f).state.cache = BCache.empty) := by
  constructor
  · intro env s h
    rcases CaptureFrame_spec env s with hc | hc
    · rw [h] at hc; exact absurd hc (by decide)
    · exact hc
  · intro env s r f h
    rcases OnCaptureResult_spec env s r f with hc | hc
    · rw [h] at hc; exact absurd hc (by decide)
    · exact hc

/- Concrete per-frame environment and states for the witnesses: the
selected window 1 in the all-good world, a worker past its ignore
window with an old change stamp (so IsChanged is false at time 1000). -/

def w0A : WorkerState := {workerInit with ignoreCounter := 0, selectedWindow := 1}

def envF : FrameEnv :=
  { getWindowRect := some ⟨0, 0, 100, 100⟩
    scanEnv := scanEnvTriv, nowSelect := 0, nowCapture := 1000, nowResult := 1000
    susc := suscEnvA
    magRectVSEmpty := false, magWorkerAvailable := false, magOutcome := none }

def sA : CropState :=
  { capturer := Capturer.window, cache := BCache.empty, cantGetMagWorker := false
    hasMagWorker := false, selectedShouldUseMagnifier := false
    worker := some w0A, windowRegionRect := DRect.zero, offset := (0, 0) }

/-- Witness for c4_cache_restored at a concrete frame. -/
theorem c4_witness :
    (CaptureFrame envF sA).state.cache = BCache.empty ∧
    (OnCaptureResult envF sA CResult.success none).state.cache = BCache.empty :=
  ⟨c4_cache_restored.1 envF sA (by decide),
   c4_cache_restored.2 envF sA CResult.success none (by decide)⟩

/- ------------------------------------------------------------------ -/
/- C6: the debounce drop in CaptureFrame.                              -/
/- ------------------------------------------------------------------ -/

/-- C6: a frame whose selection decision observes IsChanged(500) = true
produces exactly one callback invocation: a Temporary error with no
frame, issued while the cache is pinned to True (the recorded cache
value at the call), and the cache is reset to Empty before CaptureFrame
returns. -/
theorem c6_debounce_drop (env : FrameEnv) (s : CropState) (w : WorkerState)
    (hw : s.worker = some w)
    (hch : (IsChanged w env.nowCapture kLastMsThreshold).1 = true) :
    (CaptureFrame env s).events =
      [CropEvent.onResult BCache.btrue CResult.errorTemporary none] ∧
    (CaptureFrame env s).state.cache = BCache.empty ∧
    (CaptureFrame env s).crashed = false := by
  unfold CaptureFrame
  simp [hw, hch]

/-- Worker whose exclusion set changed 100 ms before the capture at
time 1000, and the matching capturer state. -/
def w1B : WorkerState :=
  {workerInit with ignoreCounter := 0, lastChanged := 900, selectedWindow := 1}

def sB : CropState := {sA with worker := some w1B}

/-- Witness for c6_debounce_drop at a concrete frame. -/
theorem c6_witness :
    (CaptureFrame envF sB).events =
      [CropEvent.onResult BCache.btrue CResult.errorTemporary none] ∧
    (CaptureFrame envF sB).state.cache = BCache.empty ∧
    (CaptureFrame envF sB).crashed = false :=
  c6_debounce_drop envF sB w1B rfl (by decide)

/- ------------------------------------------------------------------ -/
/- C7: the Window-to-Screen hysteresis.                                -/
/- ------------------------------------------------------------------ -/

/-- C7: when the debounce is quiet, the capturer state is neither
Unknown nor Screen, and the freshly computed eligibility decision is
True, CaptureFrame sleeps 34 ms, switches the capturer to Screen, emits
a Temporary error with no frame (dropping the in-flight frame) and
resets the cache to Empty; a following frame in the Screen state whose
decision is again True is delegated to the base class with the cache
reading True (the Screen backend). -/
theorem c7_transition_hysteresis :
    (∀ (env : FrameEnv) (s : CropState) (w : WorkerState),
      s.worker = some w →
      (IsChanged w env.nowCapture kLastMsThreshold).1 = false →
      s.cache = BCache.empty →
      s.capturer ≠ Capturer.unknown → s.capturer ≠ Capturer.screen →
      (ShouldUseScreenCapturerUncached env.susc (wrrOf env)
          (some (IsChanged w env.nowCapture kLastMsThreshold).2)).1 = true →
      (CaptureFrame env s).events =
        [CropEvent.sleepMs 34,
         CropEvent.onResult BCache.btrue CResult.errorTemporary none] ∧
      (CaptureFrame env s).state.capturer = Capturer.screen ∧
      (CaptureFrame env s).state.cache = BCache.empty) ∧
    (∀ (env : FrameEnv) (s : CropState) (w : WorkerState),
      s.worker = some w →
      (IsChanged w env.nowCapture kLastMsThreshold).1 = false →
      s.cache = BCache.empty →
      s.capturer = Capturer.screen →
      (ShouldUseScreenCapturerUncached env.susc (wrrOf env)
          (some (IsChanged w env.nowCapture kLastMsThreshold).2)).1 = true →
      (CaptureFrame env s).events =
        [CropEvent.delegateBase BCache.btrue Capturer.screen] ∧
      (CaptureFrame env s).state.capturer = Capturer.screen) := by
  constructor
  · intro env s w hw hch hc hcap1 hcap2 hsusc
    simp [CaptureFrame, CaptureFrameBody, CaptureFrameRest,
          ShouldUseScreenCapturerCached, hw, hch, hc, hsusc, hcap1, hcap2]
  · intro env s w hw hch hc hcap hsusc
    simp [CaptureFrame, CaptureFrameBody, CaptureFrameRest,
          ShouldUseScreenCapturerCached, hw, hch, hc, hsusc, hcap]

/-- The capturer already in the Screen state. -/
def sScr : CropState := {sA with capturer := Capturer.screen}

/-- Witness for c7_transition_hysteresis at a concrete Window-to-Screen
transition and the frame after it. -/
theorem c7_witness :
    ((CaptureFrame envF sA).events =
        [CropEvent.sleepMs 34,
         CropEvent.onResult BCache.btrue CResult.errorTemporary none] ∧
      (CaptureFrame envF sA).state.capturer = Capturer.screen ∧
      (CaptureFrame envF sA).state.cache = BCache.empty) ∧
    ((CaptureFrame envF sScr).events =
        [CropEvent.delegateBase BCache.btrue Capturer.screen] ∧
      (CaptureFrame envF sScr).state.capturer = Capturer.screen) :=
  ⟨c7_transition_hysteresis.1 envF sA w0A rfl (by decide) rfl (by decide)
     (by decide) (by decide),
   c7_transition_hysteresis.2 envF sScr w0A rfl (by decide) rfl rfl (by decide)⟩

/- ------------------------------------------------------------------ -/
/- C10: the unconditional frame dereference on the Magnifier path.     -/
/- ------------------------------------------------------------------ -/

/-- C10: when OnCaptureResult runs with the capturer in the Magnifier
state and the debounce check false, the delivered frame pointer is
dereferenced with no null check: a null frame crashes the method, and
the dereference is safe exactly under the precondition that the
magnifier backend delivered a non-null frame. -/
theorem c10_magnifier_null_deref :
    (∀ (env : FrameEnv) (s : CropState) (r : CResult) (w : WorkerState),
      s.capturer = Capturer.magnifier →
      s.worker = some w →
      (IsChanged w env.nowResult kLastMsThreshold).1 = false →
      (OnCaptureResult env s r none).crashed = true) ∧
    (∀ (env : FrameEnv) (s : CropState) (r : CResult) (f : Frame),
      (OnCaptureResult env s r (some f)).crashed = false) := by
  constructor
  · intro env s r w hcap hw hch
    unfold OnCaptureResult OnCaptureResultTail
    simp [hw, hch, hcap]
  · intro env s r f
    unfold OnCaptureResult OnCaptureResultTail
    cases hw : s.worker with
    | none =>
      by_cases hc : s.capturer = Capturer.magnifier <;> simp [hw, hc]
    | some w =>
      by_cases hch : (IsChanged w env.nowResult kLastMsThreshold).1 = true <;>
        by_cases hc : s.capturer = Capturer.magnifier <;> simp [hw, hch, hc]

/-- The capturer in the Magnifier state. -/
def sMag : CropState := {sA with capturer := Capturer.magnifier}

/-- Witness for c10_magnifier_null_deref at a concrete callback. -/
theorem c10_witness :
    (OnCaptureResult envF sMag CResult.success none).crashed = true ∧
    (OnCaptureResult envF sMag CResult.success (some ⟨(3, 4)⟩)).crashed = false :=
  ⟨c10_magnifier_null_deref.1 envF sMag CResult.success w0A rfl rfl (by decide),
   c10_magnifier_null_deref.2 envF sMag CResult.success ⟨(3, 4)⟩⟩

/- ------------------------------------------------------------------ -/
/- C8: SelectSource validity and the selection binding.                -/
/- ------------------------------------------------------------------ -/

/-- C8: SelectSource returns false exactly when the handle is not a
valid, visible, non-minimized window, and on that failure both the
base-class selected-window binding and the window backend's bound
handle are left unchanged. -/
theorem c8_select_source :
    (∀ (env : SelEnv) (scanEnv : ScanEnv) (now : Nat) (s : SelectState)
       (id : Nat),
      (CroppingSelectSource env scanEnv now s id).1 = false ↔
        ¬(env.isWindow = true ∧ env.isWindowVisible = true ∧
          env.isIconic = false)) ∧
    (∀ (env : SelEnv) (scanEnv : ScanEnv) (now : Nat) (s : SelectState)
       (id : Nat),
      (CroppingSelectSource env scanEnv now s id).1 = false →
      (CroppingSelectSource env scanEnv now s id).2.selectedWindow =
        s.selectedWindow ∧
      (CroppingSelectSource env scanEnv now s id).2.wc.window = s.wc.window) := by
  constructor
  · intro env scanEnv now s id
    unfold CroppingSelectSource WCSelectSource
    by_cases h1 : env.isWindow = true <;>
      by_cases h2 : env.isWindowVisible = true <;>
        by_cases h3 : env.isIconic = true <;>
          simp [h1, h2, h3]
  · intro env scanEnv now s id h
    unfold CroppingSelectSource WCSelectSource at h ⊢
    by_cases h1 : env.isWindow = true <;>
      by_cases h2 : env.isWindowVisible = true <;>
        by_cases h3 : env.isIconic = true <;>
          simp [h1, h2, h3] at h ⊢

/-- An invalid selection target. -/
def selEnvBad : SelEnv :=
  { isWindow := false, isWindowVisible := false, isIconic := false
    sizeMap := fun _ => (0, 0), className := "Foo"
    isWindows8OrLater := false, childContainsD3D := false }

/-- A bound selection state before the failing call. -/
def selState0 : SelectState :=
  { crop := sA, wc := {window := 3, previousSize := (0, 0), frameCounter := 0}
    selectedWindow := 3 }

/-- Witness for c8_select_source at a concrete invalid handle. -/
theorem c8_witness :
    (CroppingSelectSource selEnvBad scanEnvTriv 0 selState0 5).2.selectedWindow
        = selState0.selectedWindow ∧
    (CroppingSelectSource selEnvBad scanEnvTriv 0 selState0 5).2.wc.window
        = selState0.wc.window :=
  c8_select_source.2 selEnvBad scanEnvTriv 0 selState0 5 (by decide)

/- ------------------------------------------------------------------ -/
/- C9: the 1x1 SUCCESS frame for empty or invisible windows.           -/
/- ------------------------------------------------------------------ -/

/-- C9: when a capture is requested while the selected handle is still
a valid window whose drawable area is readable, but the original
rectangle is empty or the window is invisible on the current desktop,
the window backend delivers SUCCESS with a 1x1 frame rather than an
error. -/
theorem c9_minimized_success (env : WCFrameEnv) (s : WCState)
    (co : DRect × DRect)
    (h1 : s.window ≠ 0) (h2 : env.isWindow = true)
    (h3 : env.croppedOriginal = some co)
    (h4 : co.2.isEmpty = true ∨ env.visibleOnDesktop = false) :
    WCCaptureFrame env s = (CResult.success, some (1, 1)) := by
  simp [WCCaptureFrame, h1, h2, h3, h4]

/-- A valid but invisible (minimized) capture target. -/
def wcfEnv : WCFrameEnv :=
  { isWindow := true, croppedOriginal := some (⟨0, 0, 1, 1⟩, DRect.zero)
    visibleOnDesktop := false
    laterOutcome := (CResult.errorTemporary, none) }

/-- The window backend bound to handle 5. -/
def wcS : WCState := { window := 5, previousSize := (0, 0), frameCounter := 0 }

/-- Witness for c9_minimized_success at a concrete minimized window. -/
theorem c9_witness : WCCaptureFrame wcfEnv wcS = (CResult.success, some (1, 1)) :=
  c9_minimized_success wcfEnv wcS (⟨0, 0, 1, 1⟩, DRect.zero) (by decide) rfl rfl
    (Or.inl (by decide))

end NwCapture
